import Mathlib

/-!
Shallow embedding of the hero-carousel controller from `src/js/main.js`
(`initHeroSlider` and its closures), the only stateful core of the
thedietplanner.com front-end.  The closure variables of `initHeroSlider`
(`current`, `total`, `autoplayTimer`, `progressTimer`, `progressStart`,
`paused`, `touchStartX`, `touchEndX`) become fields of an explicit state
record, together with an explicit model of the DOM pieces the handlers
mutate (the `active` class flags on the slide and dot elements, the
track's `translateX` percentage, the progress-bar width) and of the
browser timer table (`setInterval` returns a fresh id, `clearInterval`
deletes by id).  JavaScript `%` on integers is truncated remainder, which
is `Int.tmod`; timestamps (`Date.now()`) are passed in explicitly as
integers; the progress-bar percentage, computed with `/` and `Math.min`,
is modelled over `ℚ`.  Pending exit-timeline completion callbacks
(`exitTl.then(...)` in `goTo`) are modelled as a list of the captured
`prevIndex` values; firing one is a separate step.  Ghost fields
(`exitRequests`, `entranceRequests`, `callLog`) record which collaborator
calls each operation makes, without influencing the modelled behaviour.
-/

/-- Ghost label for calls the event handlers make (used to count how many
times `next`/`prev`/`startAutoplay` run during a gesture). -/
inductive Call where
  | next
  | prev
  | startAutoplay
deriving DecidableEq

/-- State of one `initHeroSlider` invocation: the closure variables of
`src/js/main.js` lines 24-30, the DOM state those closures write, the
timer table, and ghost logs. -/
structure CState where
  /-- `total = slides.length` (line 25), fixed at init. -/
  total : Nat
  /-- `current` (line 24). -/
  current : Int
  /-- `active` class flag of each element of `slides`, index-aligned. -/
  slideActive : List Bool
  /-- `active` class flag of each element of `dots`, index-aligned. -/
  dotActive : List Bool
  /-- the `V` in `track.style.transform = translateX(V%)` (line 46). -/
  trackOffsetPct : Int
  /-- captured `prevIndex` of each not-yet-fired exit-timeline completion
  callback (lines 40-42). -/
  pendingExit : List Int
  /-- ghost: arguments of every `createSlideExitTimeline` request. -/
  exitRequests : List Int
  /-- ghost: arguments of every `createSlideEntranceTimeline` request. -/
  entranceRequests : List Int
  /-- `paused` (line 30). -/
  paused : Bool
  /-- `progressStart` (line 29), a `Date.now()` timestamp. -/
  progressStart : Int
  /-- the percentage written to `progressBar.style.width`. -/
  progressWidthPct : ℚ
  /-- next fresh interval id the browser would hand out. -/
  nextId : Nat
  /-- `autoplayTimer` (line 27): last id stored, `none` for `null`. -/
  autoplayVar : Option Nat
  /-- `progressTimer` (line 28): last id stored, `none` for `null`. -/
  progressVar : Option Nat
  /-- ids of the autoplay intervals currently scheduled by the browser. -/
  activeAutoplay : List Nat
  /-- ids of the progress intervals currently scheduled by the browser. -/
  activeProgress : List Nat
  /-- `touchStartX` (line 106). -/
  touchStartX : Int
  /-- `touchEndX` (line 107). -/
  touchEndX : Int
  /-- `typeof window.createSlideEntranceTimeline === 'function'`. -/
  hasEntrance : Bool
  /-- `typeof window.createSlideExitTimeline === 'function'`. -/
  hasExit : Bool
  /-- ghost: log of `next`/`prev`/`startAutoplay` calls. -/
  callLog : List Call

/-- JavaScript `((index % total) + total) % total` (line 34) for an integer
`index`: JS `%` on integers is truncated remainder, `Int.tmod`. -/
def jsWrap (k : Int) (n : Nat) : Int :=
  (Int.tmod k (n : Int) + (n : Int)).tmod (n : Int)

/-- `slides.forEach(s => s.classList.remove('active')); slides[i].classList.add('active')`
(lines 47-48 and 49-50): clear every flag, then set flag `i`. -/
def setActive (l : List Bool) (i : Nat) : List Bool :=
  (l.map (fun _ => false)).set i true

/-- Delete interval id `o` from a scheduled-id list; `clearInterval(null)`
is a no-op, matching the `none` case. -/
def clearId (l : List Nat) (o : Option Nat) : List Nat :=
  match o with
  | none => l
  | some i => l.filter (fun j => j != i)

/-- `clearInterval(x)` on the browser timer table: removes the id from
whichever kind of interval it names (ids share one namespace). -/
def clearInterval (s : CState) (o : Option Nat) : CState :=
  { s with activeAutoplay := clearId s.activeAutoplay o,
           activeProgress := clearId s.activeProgress o }

/-- `resetProgress()` (lines 64-74): zero the bar, record the epoch,
`clearInterval(progressTimer)`, then `setInterval(..., 30)` storing the
fresh id in `progressTimer`.  `now` is the `Date.now()` at line 66. -/
def resetProgress (now : Int) (s : CState) : CState :=
  let s1 : CState := { s with progressWidthPct := 0, progressStart := now }
  let s2 : CState := clearInterval s1 s1.progressVar
  { s2 with activeProgress := s2.activeProgress ++ [s2.nextId],
            progressVar := some s2.nextId,
            nextId := s2.nextId + 1 }

/-- `goTo(index)` (lines 32-58).  `now` is the `Date.now()` observed by the
nested `resetProgress` call. -/
def goTo (now : Int) (index : Int) (s : CState) : CState :=
  let prevIndex := s.current
  let cur := jsWrap index s.total
  let s1 : CState := { s with current := cur }
  -- lines 37-44: exit timeline on the outgoing slide, completion callback pending
  let s2 : CState :=
    if prevIndex ≠ cur ∧ s1.hasExit then
      { s1 with exitRequests := s1.exitRequests ++ [prevIndex],
                pendingExit := s1.pendingExit ++ [prevIndex] }
    else s1
  -- lines 46-50: track offset and active markers, unconditionally
  let s3 : CState :=
    { s2 with trackOffsetPct := -(cur * 20),
              slideActive := setActive s2.slideActive cur.toNat,
              dotActive := setActive s2.dotActive cur.toNat }
  -- lines 53-55: entrance timeline, unconditionally when the factory exists
  let s4 : CState :=
    if s3.hasEntrance then
      { s3 with entranceRequests := s3.entranceRequests ++ [cur] }
    else s3
  resetProgress now s4

/-- `next()` (line 60); the ghost log records the call. -/
def next (now : Int) (s : CState) : CState :=
  goTo now (s.current + 1) { s with callLog := s.callLog ++ [Call.next] }

/-- `prev()` (line 61); the ghost log records the call. -/
def prev (now : Int) (s : CState) : CState :=
  goTo now (s.current - 1) { s with callLog := s.callLog ++ [Call.prev] }

/-- `stopAutoplay()` (lines 85-88). -/
def stopAutoplay (s : CState) : CState :=
  clearInterval (clearInterval s s.autoplayVar) s.progressVar

/-- `startAutoplay()` (lines 77-83): stop both timers, schedule the autoplay
interval with a fresh id, then `resetProgress()`. -/
def startAutoplay (now : Int) (s : CState) : CState :=
  let s0 : CState := { s with callLog := s.callLog ++ [Call.startAutoplay] }
  let s1 : CState := stopAutoplay s0
  let s2 : CState := { s1 with activeAutoplay := s1.activeAutoplay ++ [s1.nextId],
                               autoplayVar := some s1.nextId,
                               nextId := s1.nextId + 1 }
  resetProgress now s2

/-- One firing of the progress interval callback (lines 68-73): a no-op
while `paused`, otherwise writes `Math.min((elapsed / 5000) * 100, 100)`. -/
def progressTick (now : Int) (s : CState) : CState :=
  if s.paused then s
  else
    let pct : ℚ := min (((now : ℚ) - (s.progressStart : ℚ)) / 5000 * 100) 100
    { s with progressWidthPct := pct }

/-- One firing of the autoplay interval callback (lines 79-81):
`if (!paused) next()`. -/
def autoplayTick (now : Int) (s : CState) : CState :=
  if s.paused then s else next now s

/-- `mouseenter` handler (line 102). -/
def mouseenterH (s : CState) : CState :=
  { s with paused := true }

/-- `mouseleave` handler (line 103): clears `paused` and recomputes the
progress epoch as `Date.now() - (Date.now() - progressStart)`; the handler
body runs at one instant `now`. -/
def mouseleaveH (now : Int) (s : CState) : CState :=
  { s with paused := false,
           progressStart := now - (now - s.progressStart) }

/-- `touchstart` handler (lines 109-112). -/
def touchstartH (x : Int) (s : CState) : CState :=
  { s with touchStartX := x, paused := true }

/-- `touchend` handler (lines 114-122): record end X, navigate when the
swipe distance exceeds 50, clear `paused`, restart autoplay. -/
def touchendH (x now : Int) (s : CState) : CState :=
  let s1 : CState := { s with touchEndX := x }
  let diff := s1.touchStartX - s1.touchEndX
  let s2 : CState :=
    if 50 < |diff| then (if 0 < diff then next now s1 else prev now s1) else s1
  let s3 : CState := { s2 with paused := false }
  startAutoplay now s3

/-- The exit-timeline completion callback for captured index `i`
(lines 40-42) fires: if such a callback is pending, it is consumed and
`slides[i].classList.remove('active')` runs. -/
def fireExit (i : Int) (s : CState) : CState :=
  if i ∈ s.pendingExit then
    { s with pendingExit := s.pendingExit.erase i,
             slideActive := s.slideActive.set i.toNat false }
  else s

/-- State right after `initHeroSlider` has read an `n`-slide markup whose
first slide and dot carry the `active` class, before any timers start. -/
def initState (n : Nat) : CState where
  total := n
  current := 0
  slideActive := (List.range n).map (fun t => t == 0)
  dotActive := (List.range n).map (fun t => t == 0)
  trackOffsetPct := 0
  pendingExit := []
  exitRequests := []
  entranceRequests := []
  paused := false
  progressStart := 0
  progressWidthPct := 0
  nextId := 0
  autoplayVar := none
  progressVar := none
  activeAutoplay := []
  activeProgress := []
  touchStartX := 0
  touchEndX := 0
  hasEntrance := false
  hasExit := false
  callLog := []

/-- The class-flag list with exactly the `j`-th of `n` flags set. -/
def oneHot (n j : Nat) : List Bool :=
  (List.range n).map (fun t => t == j)

/-- Number of elements currently carrying the `active` class. -/
def countTrue (l : List Bool) : Nat :=
  l.count true

/-! ### Wraparound arithmetic -/

theorem neg_lt_tmod (a : Int) {b : Int} (hb : 0 < b) : -b < Int.tmod a b := by
  obtain ⟨p, rfl⟩ := Int.eq_succ_of_zero_lt hb
  rcases a with m | m
  · show -(((Nat.succ p : Nat) : Int)) < ((m % Nat.succ p : Nat) : Int)
    omega
  · show -(((Nat.succ p : Nat) : Int)) < -((Nat.succ m % Nat.succ p : Nat) : Int)
    have h3 : Nat.succ m % Nat.succ p < Nat.succ p := Nat.mod_lt _ (Nat.succ_pos p)
    omega

theorem jsWrap_bounds (k : Int) {n : Nat} (h : 0 < n) :
    0 ≤ jsWrap k n ∧ jsWrap k n < (n : Int) := by
  have hb : (0 : Int) < (n : Int) := by exact_mod_cast h
  have h1 : Int.tmod k (n : Int) < (n : Int) := Int.tmod_lt_of_pos k hb
  have h2 : -(n : Int) < Int.tmod k (n : Int) := neg_lt_tmod k hb
  have h3 : 0 ≤ Int.tmod k (n : Int) + (n : Int) := by omega
  unfold jsWrap
  rw [Int.tmod_eq_emod h3 (le_of_lt hb)]
  exact ⟨Int.emod_nonneg _ (by omega), Int.emod_lt_of_pos _ hb⟩

/-! ### Characterization of `goTo` -/

/-- All fields of the state after `goTo`, as updates of the input state. -/
theorem goTo_spec (now index : Int) (s : CState) :
    goTo now index s = { s with
      current := jsWrap index s.total,
      slideActive := setActive s.slideActive (jsWrap index s.total).toNat,
      dotActive := setActive s.dotActive (jsWrap index s.total).toNat,
      trackOffsetPct := -(jsWrap index s.total * 20),
      pendingExit := s.pendingExit ++
        (if s.current ≠ jsWrap index s.total ∧ s.hasExit then [s.current] else []),
      exitRequests := s.exitRequests ++
        (if s.current ≠ jsWrap index s.total ∧ s.hasExit then [s.current] else []),
      entranceRequests := s.entranceRequests ++
        (if s.hasEntrance then [jsWrap index s.total] else []),
      progressWidthPct := 0,
      progressStart := now,
      activeAutoplay := clearId s.activeAutoplay s.progressVar,
      activeProgress := clearId s.activeProgress s.progressVar ++ [s.nextId],
      progressVar := some s.nextId,
      nextId := s.nextId + 1 } := by
  by_cases h1 : s.current = jsWrap index s.total <;>
    by_cases h2 : s.hasExit = true <;>
    by_cases h3 : s.hasEntrance = true <;>
    cases s <;>
    simp_all [goTo, resetProgress, clearInterval]

/-! ### Class-flag lists -/

theorem oneHot_length (n j : Nat) : (oneHot n j).length = n := by
  simp [oneHot]

theorem setActive_eq_oneHot {l : List Bool} {n j : Nat}
    (hl : l.length = n) : setActive l j = oneHot n j := by
  apply List.ext_getElem
  · simp [setActive, oneHot, hl]
  · intro i h1 h2
    simp only [setActive, oneHot] at *
    rw [List.getElem_set]
    simp only [List.getElem_map, List.getElem_range]
    by_cases hij : j = i
    · simp [hij]
    · simp [hij, Ne.symm hij]

theorem set_oneHot_false {n j m : Nat} (hm : m ≠ j) :
    (oneHot n j).set m false = oneHot n j := by
  apply List.ext_getElem
  · simp
  · intro i h1 h2
    rw [List.getElem_set]
    by_cases him : m = i
    · subst him
      simp only [oneHot, List.getElem_map, List.getElem_range]
      simp [hm]
    · simp [him]

theorem countTrue_oneHot_of_ge {n j : Nat} (h : n ≤ j) :
    countTrue (oneHot n j) = 0 := by
  induction n with
  | zero => rfl
  | succ m ih =>
    have hmj : (m == j) = false := by
      simp only [beq_eq_false_iff_ne]
      omega
    simp only [countTrue, oneHot, List.range_succ, List.map_append, List.count_append,
      List.map_cons, List.map_nil, List.count_cons, hmj] at *
    rw [ih (by omega)]
    simp

theorem countTrue_oneHot {n j : Nat} (h : j < n) :
    countTrue (oneHot n j) = 1 := by
  induction n with
  | zero => omega
  | succ m ih =>
    simp only [countTrue, oneHot, List.range_succ, List.map_append, List.count_append,
      List.map_cons, List.map_nil, List.count_cons] at *
    by_cases hj : j = m
    · subst hj
      have h0 : countTrue (oneHot j j) = 0 := countTrue_oneHot_of_ge (le_refl j)
      simp only [countTrue, oneHot] at h0
      rw [h0]
      simp
    · rw [ih (by omega)]
      have hmj : (m == j) = false := by
        simp only [beq_eq_false_iff_ne]
        omega
      simp [hmj]

theorem oneHot_getElem {n j : Nat} (h : j < n) :
    (oneHot n j).get? j = some true := by
  have hlen : j < (oneHot n j).length := by rw [oneHot_length]; exact h
  rw [List.get?_eq_getElem? , List.getElem?_eq_getElem hlen]
  simp [oneHot]

/-! ### The active-marker invariant (spec section 3) -/

/-- State consistency: the index is in range and the `active` markers on
slides and dots sit exactly at `current`; every pending exit callback
captured an in-range index. -/
def MarkerInv (s : CState) : Prop :=
  0 < s.total ∧ 0 ≤ s.current ∧ s.current < (s.total : Int) ∧
  s.slideActive = oneHot s.total s.current.toNat ∧
  s.dotActive = oneHot s.total s.current.toNat ∧
  (∀ i ∈ s.pendingExit, 0 ≤ i ∧ i < (s.total : Int))

instance (s : CState) : Decidable (MarkerInv s) := by
  unfold MarkerInv
  infer_instance

theorem goTo_Inv (now k : Int) (s : CState) (h : MarkerInv s) : MarkerInv (goTo now k s) := by
  obtain ⟨h1, h2, h3, h4, h5, h6⟩ := h
  have hw := jsWrap_bounds k h1
  rw [goTo_spec]
  unfold MarkerInv
  dsimp only
  refine ⟨h1, hw.1, hw.2, ?_, ?_, ?_⟩
  · exact setActive_eq_oneHot (by rw [h4, oneHot_length])
  · exact setActive_eq_oneHot (by rw [h5, oneHot_length])
  · intro i hi
    rcases List.mem_append.mp hi with hmem | hmem
    · exact h6 i hmem
    · have : i = s.current := by
        by_cases hc : s.current ≠ jsWrap k s.total ∧ s.hasExit = true <;>
          simp [hc] at hmem
        · exact hmem
      omega

theorem fireExit_Inv (i : Int) (s : CState) (h : MarkerInv s) (hne : i ≠ s.current) :
    MarkerInv (fireExit i s) := by
  obtain ⟨h1, h2, h3, h4, h5, h6⟩ := h
  unfold fireExit
  split
  · next hmem =>
    obtain ⟨hi0, hin⟩ := h6 i hmem
    refine ⟨h1, h2, h3, ?_, h5, ?_⟩
    · rw [h4]
      exact set_oneHot_false (by omega)
    · intro j hj
      exact h6 j (List.mem_of_mem_erase hj)
  · exact ⟨h1, h2, h3, h4, h5, h6⟩

/-! ### Navigation event traces -/

/-- One event the carousel can process: a direct `goTo(k)` (dot handler),
`next()`, `prev()`, or the firing of a pending exit-timeline completion
callback captured for index `i`. -/
inductive Ev where
  | nav (k : Int)
  | stepNext
  | stepPrev
  | fire (i : Int)

/-- Apply one event; the timestamp of the embedded `Date.now()` reads is
irrelevant to the marker state and fixed at 0. -/
def step (e : Ev) (s : CState) : CState :=
  match e with
  | .nav k => goTo 0 k s
  | .stepNext => next 0 s
  | .stepPrev => prev 0 s
  | .fire i => fireExit i s

/-- Apply a sequence of events, oldest first. -/
def run (evs : List Ev) (s : CState) : CState :=
  evs.foldl (fun t e => step e t) s

/-- Scheduling discipline under which the active-marker invariant survives:
every exit-callback fires while its captured slide is not the current one. -/
def safeRunB : CState → List Ev → Bool
  | _, [] => true
  | s, e :: rest =>
    (match e with
     | .fire i => i != s.current
     | _ => true) && safeRunB (step e s) rest

theorem run_MarkerInv (evs : List Ev) (s : CState) (h : MarkerInv s)
    (hs : safeRunB s evs = true) : MarkerInv (run evs s) := by
  induction evs generalizing s with
  | nil => exact h
  | cons e rest ih =>
    cases e with
    | nav k =>
      simp only [safeRunB, Bool.true_and] at hs
      exact ih _ (goTo_Inv 0 k s h) hs
    | stepNext =>
      simp only [safeRunB, Bool.true_and] at hs
      exact ih _ (goTo_Inv 0 _ _ h) hs
    | stepPrev =>
      simp only [safeRunB, Bool.true_and] at hs
      exact ih _ (goTo_Inv 0 _ _ h) hs
    | fire i =>
      simp only [safeRunB, Bool.and_eq_true, bne_iff_ne] at hs
      exact ih _ (fireExit_Inv i s h hs.1) hs.2

/-! ### Timer bookkeeping (spec section 5) -/

/-- Timer-table consistency: every scheduled interval id is the one stored
in the corresponding closure variable, and stored ids are stale-free
(below the next fresh id).  Holds at init (no timers, both variables
`null`) and is preserved by `startAutoplay`. -/
def TimerInv (s : CState) : Prop :=
  (∀ i ∈ s.activeAutoplay, s.autoplayVar = some i) ∧
  (∀ i ∈ s.activeProgress, s.progressVar = some i) ∧
  (∀ i ∈ s.autoplayVar.toList, i < s.nextId) ∧
  (∀ i ∈ s.progressVar.toList, i < s.nextId)

instance (s : CState) : Decidable (TimerInv s) := by
  unfold TimerInv
  infer_instance

theorem clearId_all_eq {l : List Nat} {o : Option Nat}
    (h : ∀ i ∈ l, o = some i) : clearId l o = [] := by
  cases o with
  | none =>
    cases l with
    | nil => rfl
    | cons a t => exact absurd (h a (by simp)) (by simp)
  | some v =>
    simp only [clearId, List.filter_eq_nil_iff]
    intro i hi
    have hv := h i hi
    simp only [Option.some.injEq] at hv
    simp [hv]

theorem clearId_nil (o : Option Nat) : clearId [] o = [] := by
  cases o <;> rfl

theorem clearId_singleton_ne {a : Nat} {o : Option Nat}
    (h : ∀ i, o = some i → i ≠ a) : clearId [a] o = [a] := by
  cases o with
  | none => rfl
  | some v =>
    have hv : v ≠ a := h v rfl
    simp [clearId, hv, Ne.symm hv]

/-- One `startAutoplay()` from a consistent timer table leaves exactly one
autoplay interval (fresh id) and one progress interval (next fresh id),
both recorded in their closure variables. -/
theorem startAutoplay_one (now : Int) (s : CState) (h : TimerInv s) :
    (startAutoplay now s).activeAutoplay = [s.nextId] ∧
    (startAutoplay now s).activeProgress = [s.nextId + 1] ∧
    (startAutoplay now s).autoplayVar = some s.nextId ∧
    (startAutoplay now s).progressVar = some (s.nextId + 1) ∧
    (startAutoplay now s).nextId = s.nextId + 2 ∧
    TimerInv (startAutoplay now s) := by
  obtain ⟨h1, h2, h3, h4⟩ := h
  have hA : clearId s.activeAutoplay s.autoplayVar = [] := clearId_all_eq h1
  have hP0 : ∀ i ∈ clearId s.activeProgress s.autoplayVar, s.progressVar = some i := by
    intro i hi
    apply h2
    cases hov : s.autoplayVar with
    | none => rw [hov] at hi; exact hi
    | some v =>
      rw [hov] at hi
      exact List.mem_of_mem_filter hi
  have hP : clearId (clearId s.activeProgress s.autoplayVar) s.progressVar = [] :=
    clearId_all_eq hP0
  have hPA : clearId [s.nextId] s.progressVar = [s.nextId] := by
    apply clearId_singleton_ne
    intro i hi
    have := h4 i (by simp [hi])
    omega
  unfold startAutoplay stopAutoplay resetProgress clearInterval
  dsimp only
  rw [hA, hP]
  simp only [List.nil_append, clearId_nil, hPA]
  refine ⟨trivial, trivial, trivial, trivial, trivial, ?_, ?_, ?_, ?_⟩
  · intro i hi
    simp only [List.mem_singleton] at hi
    simp [hi]
  · intro i hi
    simp only [List.mem_singleton] at hi
    simp [hi]
  · intro i hi
    simp only [Option.toList_some, List.mem_singleton] at hi
    dsimp only
    omega
  · intro i hi
    simp only [Option.toList_some, List.mem_singleton] at hi
    dsimp only
    omega

/-- `startAutoplay()` called `n` times in a row. -/
def startN (now : Int) : Nat → CState → CState
  | 0, s => s
  | m + 1, s => startN now m (startAutoplay now s)

theorem startN_one_after (now : Int) (m : Nat) (s : CState) (h : TimerInv s) :
    (startN now m (startAutoplay now s)).activeAutoplay.length = 1 ∧
    (startN now m (startAutoplay now s)).activeProgress.length = 1 := by
  induction m generalizing s with
  | zero =>
    obtain ⟨hA, hP, _, _, _, _⟩ := startAutoplay_one now s h
    exact ⟨by rw [startN, hA]; rfl, by rw [startN, hP]; rfl⟩
  | succ m ih =>
    have hT : TimerInv (startAutoplay now s) := (startAutoplay_one now s h).2.2.2.2.2
    exact ih (startAutoplay now s) hT

/-! ### Claim theorems -/

/-- C1: for every integer `k` (positive, negative, or `≥ slideCount`), with
`slideCount = total > 0`, `goTo(k)` sets `current` to `((k % n) + n) % n`
(JS truncated `%`), a value always inside `[0, n)`; `goTo` is a total
function of the state (no exception path exists).  Concretely, with
`n = 4` starting at index 0, three `next()` calls reach index 3 and a
fourth wraps back to 0. -/
theorem goTo_wraparound (s : CState) (k now : Int) (h : 0 < s.total) :
    (goTo now k s).current
        = (Int.tmod k (s.total : Int) + (s.total : Int)).tmod (s.total : Int) ∧
    0 ≤ (goTo now k s).current ∧
    (goTo now k s).current < (s.total : Int) ∧
    (next 0 (next 0 (next 0 (initState 4)))).current = 3 ∧
    (next 0 (next 0 (next 0 (next 0 (initState 4))))).current = 0 := by
  have hw := jsWrap_bounds k h
  refine ⟨?_, ?_, ?_, by decide, by decide⟩
  · rw [goTo_spec]
    rfl
  · rw [goTo_spec]; exact hw.1
  · rw [goTo_spec]; exact hw.2

theorem goTo_wraparound_check :
    0 < (initState 4).total ∧
    ((goTo 0 (-7) (initState 4)).current
        = (Int.tmod (-7) ((initState 4).total : Int) + ((initState 4).total : Int)).tmod
            ((initState 4).total : Int) ∧
     0 ≤ (goTo 0 (-7) (initState 4)).current ∧
     (goTo 0 (-7) (initState 4)).current < ((initState 4).total : Int) ∧
     (next 0 (next 0 (next 0 (initState 4)))).current = 3 ∧
     (next 0 (next 0 (next 0 (next 0 (initState 4))))).current = 0) :=
  ⟨by decide, goTo_wraparound (initState 4) (-7) 0 (by decide)⟩

/-- C3: `startAutoplay()` called `N ≥ 1` times in succession, from any
state whose timer table is consistent with the closure variables, leaves
exactly one scheduled autoplay interval and exactly one scheduled progress
interval: each call runs `stopAutoplay()` (cancelling both stored ids) and
`resetProgress()` (cancelling the stored progress id) before scheduling
replacements, so duplicates never accumulate. -/
theorem startAutoplay_no_duplicates (now : Int) (N : Nat) (s : CState)
    (h : TimerInv s) (hN : 1 ≤ N) :
    (startN now N s).activeAutoplay.length = 1 ∧
    (startN now N s).activeProgress.length = 1 := by
  obtain ⟨m, rfl⟩ : ∃ m, N = m + 1 := ⟨N - 1, by omega⟩
  exact startN_one_after now m s h

theorem startAutoplay_no_duplicates_check :
    (TimerInv (initState 3) ∧ 1 ≤ 5) ∧
    ((startN 0 5 (initState 3)).activeAutoplay.length = 1 ∧
     (startN 0 5 (initState 3)).activeProgress.length = 1) :=
  ⟨⟨by decide, by decide⟩,
   startAutoplay_no_duplicates 0 5 (initState 3) (by decide) (by decide)⟩

/-- C2 (amended): after any finite sequence of navigation events
(`goTo`/`next`/`prev` and exit-callback firings) from a consistent state,
exactly one slide and exactly one indicator carry the `active` marker and
both sit at index `currentIndex` — PROVIDED every pending exit-timeline
completion callback fires while its captured slide is not the current one
(in particular, always, when the exit factory is absent so no callback is
ever created).  The unrestricted claim is false: see the counterexample,
where a callback firing after navigation has returned to its slide leaves
zero active slides. -/
theorem nav_active_marker (s : CState) (evs : List Ev)
    (hI : MarkerInv s) (hS : safeRunB s evs = true) :
    countTrue (run evs s).slideActive = 1 ∧
    countTrue (run evs s).dotActive = 1 ∧
    (run evs s).slideActive.get? (run evs s).current.toNat = some true ∧
    (run evs s).dotActive.get? (run evs s).current.toNat = some true := by
  obtain ⟨h1, h2, h3, h4, h5, _⟩ := run_MarkerInv evs s hI hS
  have hlt : (run evs s).current.toNat < (run evs s).total := by omega
  rw [h4, h5]
  exact ⟨countTrue_oneHot hlt, countTrue_oneHot hlt,
         oneHot_getElem hlt, oneHot_getElem hlt⟩

theorem nav_active_marker_check :
    (MarkerInv { initState 4 with hasExit := true } ∧
     safeRunB { initState 4 with hasExit := true }
       [Ev.nav 2, Ev.stepNext, Ev.fire 2, Ev.fire 0, Ev.stepPrev] = true) ∧
    (countTrue (run [Ev.nav 2, Ev.stepNext, Ev.fire 2, Ev.fire 0, Ev.stepPrev]
        { initState 4 with hasExit := true }).slideActive = 1 ∧
     countTrue (run [Ev.nav 2, Ev.stepNext, Ev.fire 2, Ev.fire 0, Ev.stepPrev]
        { initState 4 with hasExit := true }).dotActive = 1 ∧
     (run [Ev.nav 2, Ev.stepNext, Ev.fire 2, Ev.fire 0, Ev.stepPrev]
        { initState 4 with hasExit := true }).slideActive.get?
       (run [Ev.nav 2, Ev.stepNext, Ev.fire 2, Ev.fire 0, Ev.stepPrev]
        { initState 4 with hasExit := true }).current.toNat = some true ∧
     (run [Ev.nav 2, Ev.stepNext, Ev.fire 2, Ev.fire 0, Ev.stepPrev]
        { initState 4 with hasExit := true }).dotActive.get?
       (run [Ev.nav 2, Ev.stepNext, Ev.fire 2, Ev.fire 0, Ev.stepPrev]
        { initState 4 with hasExit := true }).current.toNat = some true) :=
  ⟨⟨by decide, by decide⟩,
   nav_active_marker { initState 4 with hasExit := true }
     [Ev.nav 2, Ev.stepNext, Ev.fire 2, Ev.fire 0, Ev.stepPrev]
     (by decide) (by decide)⟩

/-- C2 counterexample: with the exit factory present, navigate 0 → 1,
navigate back 1 → 0, then let the exit callback captured at the first
transition (for slide 0) fire.  Line 41 removes `active` from slide 0,
which is current again, leaving zero slides with the active marker — the
claimed "exactly one slide carries the active marker after any sequence of
navigation calls, with callbacks firing at any later point" is false. -/
theorem nav_active_marker_cex :
    ¬ (countTrue (run [Ev.nav 1, Ev.nav 0, Ev.fire 0]
        { initState 2 with hasExit := true }).slideActive = 1) := by
  decide

/-- The track offset as the SPEC states it (section 6): `-currentIndex *
(100 / slideCount)` percent, written here over `ℚ` so the division is
exact for every slide count.  Kept separate from the embedding of line 46,
which hardcodes `-current * 20`. -/
def specTrackOffset (n : Nat) (i : Int) : ℚ :=
  -((i : ℚ) * (100 / (n : ℚ)))

/-- C4 (amended): after every navigation the offset written to the track is
`-currentIndex * 20` percent, whatever `slideCount` is (line 46 hardcodes
the 20); this coincides with the spec formula `-currentIndex *
(100 / slideCount)` exactly when `slideCount = 5`.  The claim as stated —
the spec formula for every `slideCount > 0` — is refuted by
`track_offset_formula_cex` at `slideCount = 4`. -/
theorem track_offset_formula (s : CState) (k now : Int) :
    (goTo now k s).trackOffsetPct = -((goTo now k s).current * 20) ∧
    (s.total = 5 →
      ((goTo now k s).trackOffsetPct : ℚ)
        = specTrackOffset s.total (goTo now k s).current) := by
  constructor
  · rw [goTo_spec]
  · intro h5
    rw [goTo_spec]
    show ((-(jsWrap k s.total * 20) : Int) : ℚ) = specTrackOffset s.total (jsWrap k s.total)
    rw [h5]
    unfold specTrackOffset
    push_cast
    ring_nf

theorem track_offset_formula_check :
    ((initState 5).total = 5) ∧
    ((goTo 0 7 (initState 5)).trackOffsetPct = -((goTo 0 7 (initState 5)).current * 20) ∧
     (((goTo 0 7 (initState 5)).trackOffsetPct : ℚ)
        = specTrackOffset (initState 5).total (goTo 0 7 (initState 5)).current)) :=
  ⟨rfl, (track_offset_formula (initState 5) 7 0).1,
        (track_offset_formula (initState 5) 7 0).2 rfl⟩

/-- C4 counterexample: with 4 slides, `goTo(1)` writes `-20%` to the track,
but the claimed formula `-currentIndex * (100 / slideCount)` demands
`-25%`. -/
theorem track_offset_formula_cex :
    ¬ (((goTo 0 1 (initState 4)).trackOffsetPct : ℚ)
        = specTrackOffset (initState 4).total (goTo 0 1 (initState 4)).current) := by
  have h1 : (goTo 0 1 (initState 4)).trackOffsetPct = -20 := by decide
  have h2 : (goTo 0 1 (initState 4)).current = 1 := by decide
  rw [h1, h2]
  unfold specTrackOffset
  norm_num [initState]

/-- C5 (amended): when the wraparound-normalized target equals
`currentIndex`, `goTo(k)` resets the progress timer (bar zeroed, epoch set
to now, a fresh progress interval stored) and leaves `currentIndex`, the
track offset, and the active markers unchanged, requesting no exit
sequence — but it DOES request an entrance sequence for the current slide
whenever the entrance factory is present, because line 53 is not guarded
by the index-change test.  The claim's "no exit or entrance animation
sequence is requested" is refuted by `goTo_same_index_cex`. -/
theorem goTo_same_index (s : CState) (k now : Int)
    (hI : MarkerInv s) (hk : jsWrap k s.total = s.current)
    (ht : s.trackOffsetPct = -(s.current * 20)) :
    (goTo now k s).current = s.current ∧
    (goTo now k s).slideActive = s.slideActive ∧
    (goTo now k s).dotActive = s.dotActive ∧
    (goTo now k s).trackOffsetPct = s.trackOffsetPct ∧
    (goTo now k s).exitRequests = s.exitRequests ∧
    (goTo now k s).pendingExit = s.pendingExit ∧
    (goTo now k s).progressWidthPct = 0 ∧
    (goTo now k s).progressStart = now ∧
    (goTo now k s).progressVar = some s.nextId ∧
    (goTo now k s).entranceRequests
      = s.entranceRequests ++ (if s.hasEntrance then [s.current] else []) := by
  obtain ⟨h1, h2, h3, h4, h5, h6⟩ := hI
  have hsl : setActive s.slideActive s.current.toNat = s.slideActive := by
    rw [h4]
    exact setActive_eq_oneHot (by rw [oneHot_length])
  have hdt : setActive s.dotActive s.current.toNat = s.dotActive := by
    rw [h5]
    exact setActive_eq_oneHot (by rw [oneHot_length])
  rw [goTo_spec]
  simp [hk, ht, hsl, hdt]

theorem goTo_same_index_check :
    (MarkerInv { initState 3 with hasEntrance := true } ∧
     jsWrap 3 ({ initState 3 with hasEntrance := true } : CState).total
        = ({ initState 3 with hasEntrance := true } : CState).current ∧
     ({ initState 3 with hasEntrance := true } : CState).trackOffsetPct
        = -(({ initState 3 with hasEntrance := true } : CState).current * 20)) ∧
    ((goTo 9 3 { initState 3 with hasEntrance := true }).current
        = ({ initState 3 with hasEntrance := true } : CState).current ∧
     (goTo 9 3 { initState 3 with hasEntrance := true }).progressWidthPct = 0 ∧
     (goTo 9 3 { initState 3 with hasEntrance := true }).entranceRequests
        = ({ initState 3 with hasEntrance := true } : CState).entranceRequests
          ++ [({ initState 3 with hasEntrance := true } : CState).current]) := by
  have h := goTo_same_index { initState 3 with hasEntrance := true } 3 9
    (by decide) (by decide) (by decide)
  refine ⟨⟨by decide, by decide, by decide⟩, h.1, h.2.2.2.2.2.2.1, ?_⟩
  have he := h.2.2.2.2.2.2.2.2.2
  simpa using he

/-- C5 counterexample: 3 slides, entrance factory present, `goTo(0)` with
`currentIndex = 0` (normalized target equal to the current index) still
issues a `createSlideEntranceTimeline` request, contradicting the claimed
"no exit or entrance animation sequence is requested". -/
theorem goTo_same_index_cex :
    ¬ ((goTo 0 0 { initState 3 with hasEntrance := true }).entranceRequests
        = ({ initState 3 with hasEntrance := true } : CState).entranceRequests) := by
  decide

theorem progressTick_not_paused {s : CState} (hp : s.paused = false) (t : Int) :
    progressTick t s = { s with progressWidthPct := min (((t : ℚ) - (s.progressStart : ℚ)) / 5000 * 100) 100 } := by
  unfold progressTick
  simp [hp]

/-- C6: the fraction the 30 ms tick writes is `elapsed / INTERVAL` clamped
to `[0,1]` (as a percentage, `min ((elapsed/5000)*100) 100`); it is
monotone in the tick time while not paused, is reset to 0 by every
navigation (`goTo`, `next`, `prev`, and an autoplay firing), never exceeds
1; and while `paused` the tick changes nothing at all, while entering the
paused state (`mouseenter`) cancels neither timer. -/
theorem progress_fraction_props (s : CState) (t t1 t2 now k : Int) :
    (s.paused = false → 0 ≤ t - s.progressStart →
      (progressTick t s).progressWidthPct / 100
          = min (((t : ℚ) - (s.progressStart : ℚ)) / 5000) 1 ∧
      0 ≤ (progressTick t s).progressWidthPct / 100 ∧
      (progressTick t s).progressWidthPct / 100 ≤ 1) ∧
    (s.paused = false → t1 ≤ t2 →
      (progressTick t1 s).progressWidthPct ≤ (progressTick t2 s).progressWidthPct) ∧
    (goTo now k s).progressWidthPct = 0 ∧
    (next now s).progressWidthPct = 0 ∧
    (prev now s).progressWidthPct = 0 ∧
    (s.paused = false → (autoplayTick now s).progressWidthPct = 0) ∧
    (s.paused = true → progressTick t s = s) ∧
    (mouseenterH s).activeProgress = s.activeProgress ∧
    (mouseenterH s).activeAutoplay = s.activeAutoplay ∧
    (mouseenterH s).progressVar = s.progressVar := by
  refine ⟨?_, ?_, rfl, rfl, rfl, ?_, ?_, rfl, rfl, rfl⟩
  · intro hp hel
    rw [progressTick_not_paused hp]
    dsimp only
    have he : (0 : ℚ) ≤ (t : ℚ) - (s.progressStart : ℚ) := by
      have hcast : (0 : ℚ) ≤ ((t - s.progressStart : Int) : ℚ) := by exact_mod_cast hel
      push_cast at hcast
      linarith
    set x : ℚ := ((t : ℚ) - (s.progressStart : ℚ)) / 5000 with hx
    have hx0 : 0 ≤ x := by positivity
    have hmain : min (x * 100) 100 / 100 = min x 1 := by
      rcases le_total x 1 with h | h
      · rw [min_eq_left (by linarith), min_eq_left h]
        ring
      · rw [min_eq_right (by linarith), min_eq_right h]
        norm_num
    refine ⟨hmain, ?_, ?_⟩
    · rw [hmain]
      exact le_min hx0 (by norm_num)
    · rw [hmain]
      exact min_le_right x 1
  · intro hp ht
    rw [progressTick_not_paused hp, progressTick_not_paused hp]
    dsimp only
    have hc : (t1 : ℚ) ≤ (t2 : ℚ) := by exact_mod_cast ht
    apply min_le_min _ (le_refl (100 : ℚ))
    linarith
  · intro hp
    unfold autoplayTick
    simp only [hp, Bool.false_eq_true, if_false]
    rfl
  · intro hp
    unfold progressTick
    simp [hp]

theorem progress_fraction_check :
    ((initState 2).paused = false ∧ 0 ≤ (2500 : Int) - (initState 2).progressStart ∧
     ({ initState 2 with paused := true } : CState).paused = true) ∧
    ((progressTick 2500 (initState 2)).progressWidthPct / 100
        = min ((((2500 : Int) : ℚ) - ((initState 2).progressStart : ℚ)) / 5000) 1 ∧
     0 ≤ (progressTick 2500 (initState 2)).progressWidthPct / 100 ∧
     (progressTick 2500 (initState 2)).progressWidthPct / 100 ≤ 1) ∧
    (goTo 0 1 (initState 2)).progressWidthPct = 0 ∧
    progressTick 2500 { initState 2 with paused := true }
        = { initState 2 with paused := true } :=
  ⟨⟨rfl, by decide, rfl⟩,
   (progress_fraction_props (initState 2) 2500 0 1 0 1).1 rfl (by decide),
   (progress_fraction_props (initState 2) 2500 0 1 0 1).2.2.1,
   (progress_fraction_props { initState 2 with paused := true } 2500 0 1 0 1).2.2.2.2.2.2.1 rfl⟩

theorem goTo_callLog (now k : Int) (s : CState) : (goTo now k s).callLog = s.callLog := by
  rw [goTo_spec]

theorem next_callLog (now : Int) (s : CState) :
    (next now s).callLog = s.callLog ++ [Call.next] := by
  unfold next
  rw [goTo_callLog]

theorem prev_callLog (now : Int) (s : CState) :
    (prev now s).callLog = s.callLog ++ [Call.prev] := by
  unfold prev
  rw [goTo_callLog]

theorem startAutoplay_callLog (now : Int) (s : CState) :
    (startAutoplay now s).callLog = s.callLog ++ [Call.startAutoplay] := rfl

theorem startAutoplay_paused (now : Int) (s : CState) :
    (startAutoplay now s).paused = s.paused := rfl

/-- C7: for every swipe, gesture start records the X coordinate and sets
`paused`; gesture end clears `paused` and calls `startAutoplay()` exactly
once, preceded by exactly one navigation call when the distance
`startX - endX` exceeds 50 in absolute value (`next()` when positive,
`prev()` when negative) and by none otherwise — read off the ghost call
log of the two handlers run in sequence. -/
theorem swipe_gesture_behavior (s : CState) (x0 x1 now1 : Int) :
    (touchstartH x0 s).paused = true ∧
    (touchendH x1 now1 (touchstartH x0 s)).paused = false ∧
    (touchendH x1 now1 (touchstartH x0 s)).callLog
      = s.callLog
        ++ (if 50 < |x0 - x1| then [if 0 < x0 - x1 then Call.next else Call.prev] else [])
        ++ [Call.startAutoplay] := by
  refine ⟨rfl, ?_, ?_⟩ <;>
    by_cases h1 : 50 < |x0 - x1| <;>
    by_cases h2 : 0 < x0 - x1 <;>
    simp [touchendH, touchstartH, startAutoplay_paused, startAutoplay_callLog,
      next_callLog, prev_callLog, h1, h2]

/-- C8: with both timeline factories absent, `goTo(k)` still computes the
wrapped in-range index and rewrites the active markers in the same
synchronous step (the model's `goTo` is a total function — there is no
exception path), no exit or entrance request is issued, and no completion
callback is left pending; the factory flags are consulted inside `goTo`
itself, at each call. -/
theorem goTo_without_provider (s : CState) (k now : Int)
    (hE : s.hasEntrance = false) (hX : s.hasExit = false) (h0 : 0 < s.total) :
    (goTo now k s).current = jsWrap k s.total ∧
    0 ≤ (goTo now k s).current ∧
    (goTo now k s).current < (s.total : Int) ∧
    (goTo now k s).slideActive = setActive s.slideActive (jsWrap k s.total).toNat ∧
    (goTo now k s).dotActive = setActive s.dotActive (jsWrap k s.total).toNat ∧
    (goTo now k s).pendingExit = s.pendingExit ∧
    (goTo now k s).exitRequests = s.exitRequests ∧
    (goTo now k s).entranceRequests = s.entranceRequests := by
  have hw := jsWrap_bounds k h0
  rw [goTo_spec]
  refine ⟨rfl, hw.1, hw.2, rfl, rfl, ?_, ?_, ?_⟩ <;> simp [hE, hX]

theorem goTo_without_provider_check :
    ((initState 3).hasEntrance = false ∧ (initState 3).hasExit = false ∧
     0 < (initState 3).total) ∧
    ((goTo 0 (-2) (initState 3)).current = jsWrap (-2) (initState 3).total ∧
     0 ≤ (goTo 0 (-2) (initState 3)).current ∧
     (goTo 0 (-2) (initState 3)).current < ((initState 3).total : Int) ∧
     (goTo 0 (-2) (initState 3)).slideActive
        = setActive (initState 3).slideActive (jsWrap (-2) (initState 3).total).toNat ∧
     (goTo 0 (-2) (initState 3)).dotActive
        = setActive (initState 3).dotActive (jsWrap (-2) (initState 3).total).toNat ∧
     (goTo 0 (-2) (initState 3)).pendingExit = (initState 3).pendingExit ∧
     (goTo 0 (-2) (initState 3)).exitRequests = (initState 3).exitRequests ∧
     (goTo 0 (-2) (initState 3)).entranceRequests = (initState 3).entranceRequests) :=
  ⟨⟨rfl, rfl, by decide⟩,
   goTo_without_provider (initState 3) (-2) 0 rfl rfl (by decide)⟩

/-- C9: the `mouseleave` handler's epoch recomputation
`progressStart = Date.now() - (Date.now() - progressStart)` is an
identity: the handler's entire effect is clearing `paused`. -/
theorem mouseleave_identity (now : Int) (s : CState) :
    (mouseleaveH now s).progressStart = s.progressStart ∧
    mouseleaveH now s = { s with paused := false } := by
  constructor
  · show now - (now - s.progressStart) = s.progressStart
    omega
  · unfold mouseleaveH
    have h : now - (now - s.progressStart) = s.progressStart := by omega
    rw [h]

/-! ### The non-integer (`NaN`) path of the dot click handler -/

/-- A JS number restricted to what the carousel's index arithmetic can
produce: an integer, or `NaN` (modelled as `none`). -/
def jadd : Option Int → Option Int → Option Int
  | some a, some b => some (a + b)
  | _, _ => none

/-- JS `%`: truncated remainder, `NaN` when either operand is `NaN` or the
divisor is 0. -/
def jrem : Option Int → Option Int → Option Int
  | some a, some b => if b = 0 then none else some (Int.tmod a b)
  | _, _ => none

/-- Line 34's normalization `((index % total) + total) % total` for an
arbitrary JS-number `index`. -/
def jsWrapJ (k : Option Int) (n : Nat) : Option Int :=
  jrem (jadd (jrem k (some (n : Int))) (some (n : Int))) (some (n : Int))

/-- `parseInt(dot.dataset.dot)` (line 96): `none` input models a missing
`data-dot` attribute (`parseInt(undefined)` is `NaN`); a present attribute
is parsed from its leading decimal digits and is `NaN` when there are
none.  Sign and whitespace handling is omitted: the attributes the markup
carries are plain decimal indices. -/
def parseIntJS : Option (List Char) → Option Int
  | none => none
  | some cs =>
    match cs.takeWhile (fun c => c.isDigit) with
    | [] => none
    | ds => some ((ds.foldl (fun acc c => acc * 10 + (c.toNat - 48)) 0 : Nat) : Int)

/-- JS element indexing `slides[i]` for a JS-number index: negative,
out-of-range and `NaN` indices yield `undefined` (`none`); line 48 then
dereferences the result with no guard. -/
def jsElementAt {α : Type} (l : List α) : Option Int → Option α
  | none => none
  | some i => if i < 0 then none else l.get? i.toNat

/-- C10: `goTo`'s in-range guarantee needs an integer argument.  A dot
whose `data-dot` attribute is missing makes line 96 pass `NaN`
(`parseIntJS none = none`); the normalization of line 34 maps it to `NaN`
again — never to a value in `[0, slideCount)` — and the unguarded
`slides[current]` / `dots[current]` accesses of lines 48/50 then address a
non-existent element (`undefined`, the `none` result, whose `.classList`
dereference is the crash).  For genuinely integer arguments the same
normalization agrees with the in-range `jsWrap`. -/
theorem dot_click_nan_unsafe (n : Nat) (slides : List Unit) (h0 : 0 < n) :
    parseIntJS none = none ∧
    jsWrapJ (parseIntJS none) n = none ∧
    (∀ i : Int, jsWrapJ (parseIntJS none) n = some i → False) ∧
    jsElementAt slides (jsWrapJ (parseIntJS none) n) = none ∧
    (∀ k : Int, jsWrapJ (some k) n = some (jsWrap k n)) := by
  refine ⟨rfl, rfl, ?_, rfl, ?_⟩
  · intro i hi
    exact Option.noConfusion hi
  · intro k
    have hn : (n : Int) ≠ 0 := by
      have : (0 : Int) < (n : Int) := by exact_mod_cast h0
      omega
    simp [jsWrapJ, jrem, jadd, jsWrap, hn]

theorem dot_click_nan_check :
    (0 < 5 ∧
     parseIntJS (some [Char.ofNat 120]) = none) ∧
    (parseIntJS none = none ∧
     jsWrapJ (parseIntJS none) 5 = none ∧
     (∀ i : Int, jsWrapJ (parseIntJS none) 5 = some i → False) ∧
     jsElementAt (List.replicate 5 ()) (jsWrapJ (parseIntJS none) 5) = none ∧
     (∀ k : Int, jsWrapJ (some k) 5 = some (jsWrap k 5))) :=
  ⟨⟨by decide, by decide⟩, dot_click_nan_unsafe 5 (List.replicate 5 ()) (by decide)⟩
